import Mathlib

/-!
# retroGame.cpp: physics core, collision resolution and pickups

Shallow embedding of `src/retroGame.cpp`.

Numeric model: C++ `float` values are modelled by exact rationals (`ℚ`), so
`0.6f` is `3/5` and `0.85f` is `17/20`; the `int` score is modelled by `ℤ`.
Rounding, overflow and NaN are outside the model.

SFML model: only the parts of `sf::RectangleShape` and `sf::FloatRect` that
the program uses are embedded (position, size, outline thickness, `move`,
`setPosition`, `getGlobalBounds`, `findIntersection`).
-/

namespace RetroGame

/-! ## Constants (lines 9-13) -/

def GRAVITY : ℚ := 3 / 5
def MOVE_SPEED : ℚ := 3 / 5
def MAX_SPEED : ℚ := 5
def JUMP_FORCE : ℚ := -13
def FRICTION : ℚ := 17 / 20

/-! ## SFML value types -/

/-- Pair of scalars, `sf::Vector2f`. -/
structure Vector2f where
  x : ℚ
  y : ℚ
deriving DecidableEq, Repr

/-- Axis-aligned rectangle `sf::FloatRect`: top-left corner and size. -/
structure FloatRect where
  position : Vector2f
  size : Vector2f
deriving DecidableEq, Repr

/-- SFML 3 `Rect<T>::findIntersection`: both rectangles are normalised with
min/max (negative sizes are allowed), and an intersection is returned only
when it has positive, non-zero area. -/
def FloatRect.findIntersection (r1 r2 : FloatRect) : Option FloatRect :=
  let r1MinX := min r1.position.x (r1.position.x + r1.size.x)
  let r1MaxX := max r1.position.x (r1.position.x + r1.size.x)
  let r1MinY := min r1.position.y (r1.position.y + r1.size.y)
  let r1MaxY := max r1.position.y (r1.position.y + r1.size.y)
  let r2MinX := min r2.position.x (r2.position.x + r2.size.x)
  let r2MaxX := max r2.position.x (r2.position.x + r2.size.x)
  let r2MinY := min r2.position.y (r2.position.y + r2.size.y)
  let r2MaxY := max r2.position.y (r2.position.y + r2.size.y)
  let interLeft := max r1MinX r2MinX
  let interTop := max r1MinY r2MinY
  let interRight := min r1MaxX r2MaxX
  let interBottom := min r1MaxY r2MaxY
  if interLeft < interRight ∧ interTop < interBottom then
    some ⟨⟨interLeft, interTop⟩, ⟨interRight - interLeft, interBottom - interTop⟩⟩
  else
    none

/-- The test `if (a.findIntersection(b))` of the source: the optional has a value. -/
def FloatRect.intersects (a b : FloatRect) : Bool :=
  (a.findIntersection b).isSome

/-- The part of `sf::RectangleShape` the program touches. Rotation, scale and
origin are never set, so the transform is the translation by `position`. -/
structure RectangleShape where
  position : Vector2f
  size : Vector2f
  outlineThickness : ℚ
deriving DecidableEq, Repr

/-- SFML `Transformable::move`: the offset is added to the position. -/
def RectangleShape.move (s : RectangleShape) (offset : Vector2f) : RectangleShape :=
  { s with position := ⟨s.position.x + offset.x, s.position.y + offset.y⟩ }

/-- SFML `Transformable::setPosition`. -/
def RectangleShape.setPosition (s : RectangleShape) (pos : Vector2f) : RectangleShape :=
  { s with position := pos }

/-- SFML `Shape::getGlobalBounds` for an untransformed rectangle of
non-negative size and outline thickness, as the constructors below build: the
bounds are those of the outline vertices, so the rectangle `(position, size)`
is grown by the outline thickness on each side (thickness `0` gives
`(position, size)`). -/
def RectangleShape.getGlobalBounds (s : RectangleShape) : FloatRect :=
  { position := ⟨s.position.x - s.outlineThickness, s.position.y - s.outlineThickness⟩
    size := ⟨s.size.x + 2 * s.outlineThickness, s.size.y + 2 * s.outlineThickness⟩ }

/-! ## Game structs (lines 16-78) -/

/-- `struct Token`. The circle is only ever read through
`shape.getGlobalBounds()` and never moves, so the token carries that rectangle. -/
structure Token where
  bounds : FloatRect
  collected : Bool
deriving DecidableEq, Repr

/-- `struct Platform`. -/
structure Platform where
  shape : RectangleShape
deriving DecidableEq, Repr

/-- Constructor `Platform(x, y, w, h)`: position, size and an outline of thickness 2. -/
def Platform.new (x y w h : ℚ) : Platform :=
  { shape := { position := ⟨x, y⟩, size := ⟨w, h⟩, outlineThickness := 2 } }

/-- `struct Player`. -/
structure Player where
  shape : RectangleShape
  velocity : Vector2f
  isGrounded : Bool
deriving DecidableEq, Repr

/-- Constructor `Player()`: a 30×30 shape without outline at the spawn point. -/
def Player.new : Player :=
  { shape := { position := ⟨50, 400⟩, size := ⟨30, 30⟩, outlineThickness := 0 }
    velocity := ⟨0, 0⟩
    isGrounded := false }

/-- `Player::update` (lines 53-77). The boundary tests and the respawn test all
read `pos`, the position right after the move. -/
def Player.update (p : Player) : Player :=
  let velocity : Vector2f := ⟨p.velocity.x * FRICTION, p.velocity.y + GRAVITY⟩
  let moved := p.shape.move velocity
  let pos := moved.position
  let size := moved.size
  let s1 := if pos.x < 0 then moved.setPosition ⟨0, pos.y⟩ else moved
  let s2 := if pos.x + size.x > 800 then s1.setPosition ⟨800 - size.x, pos.y⟩ else s1
  if pos.y > 600 then
    { p with shape := s2.setPosition ⟨50, 400⟩, velocity := ⟨0, 0⟩ }
  else
    { p with shape := s2, velocity := velocity }

/-! ## Collision logic (lines 81-117) -/

/-- Line 90: player's right edge minus wall's left edge. -/
def overlapLeft (playerBounds wallBounds : FloatRect) : ℚ :=
  (playerBounds.position.x + playerBounds.size.x) - wallBounds.position.x

/-- Line 91: wall's right edge minus player's left edge. -/
def overlapRight (playerBounds wallBounds : FloatRect) : ℚ :=
  (wallBounds.position.x + wallBounds.size.x) - playerBounds.position.x

/-- Line 92: player's bottom edge minus wall's top edge. -/
def overlapTop (playerBounds wallBounds : FloatRect) : ℚ :=
  (playerBounds.position.y + playerBounds.size.y) - wallBounds.position.y

/-- Line 93: wall's bottom edge minus player's top edge. -/
def overlapBottom (playerBounds wallBounds : FloatRect) : ℚ :=
  (wallBounds.position.y + wallBounds.size.y) - playerBounds.position.y

/-- Line 95. -/
def minOverlapX (playerBounds wallBounds : FloatRect) : ℚ :=
  min (overlapLeft playerBounds wallBounds) (overlapRight playerBounds wallBounds)

/-- Line 96. -/
def minOverlapY (playerBounds wallBounds : FloatRect) : ℚ :=
  min (overlapTop playerBounds wallBounds) (overlapBottom playerBounds wallBounds)

/-- `checkCollision` (lines 81-117). -/
def checkCollision (p : Player) (plat : Platform) : Player :=
  let playerBounds := p.shape.getGlobalBounds
  let wallBounds := plat.shape.getGlobalBounds
  if playerBounds.intersects wallBounds then
    if minOverlapX playerBounds wallBounds < minOverlapY playerBounds wallBounds then
      if overlapLeft playerBounds wallBounds < overlapRight playerBounds wallBounds then
        { p with
          shape := p.shape.move ⟨-(overlapLeft playerBounds wallBounds), 0⟩
          velocity := ⟨0, p.velocity.y⟩ }
      else
        { p with
          shape := p.shape.move ⟨overlapRight playerBounds wallBounds, 0⟩
          velocity := ⟨0, p.velocity.y⟩ }
    else
      if overlapTop playerBounds wallBounds < overlapBottom playerBounds wallBounds then
        { p with
          shape := p.shape.move ⟨0, -(overlapTop playerBounds wallBounds)⟩
          velocity := ⟨p.velocity.x, 0⟩
          isGrounded := true }
      else
        { p with
          shape := p.shape.move ⟨0, overlapBottom playerBounds wallBounds⟩
          velocity := ⟨p.velocity.x, 0⟩ }
  else
    p

/-! ## Frame driver (lines 143-212) -/

/-- The three booleans polled at lines 174-182. -/
structure Input where
  left : Bool
  right : Bool
  jump : Bool
deriving DecidableEq, Repr

/-- Left impulse, lines 184-186. -/
def applyLeft (left : Bool) (p : Player) : Player :=
  if left then
    if p.velocity.x > -MAX_SPEED then
      { p with velocity := ⟨p.velocity.x - MOVE_SPEED, p.velocity.y⟩ }
    else p
  else p

/-- Right impulse, lines 187-189. -/
def applyRight (right : Bool) (p : Player) : Player :=
  if right then
    if p.velocity.x < MAX_SPEED then
      { p with velocity := ⟨p.velocity.x + MOVE_SPEED, p.velocity.y⟩ }
    else p
  else p

/-- Jump, lines 190-193. -/
def applyJump (jump : Bool) (p : Player) : Player :=
  if jump && p.isGrounded then
    { p with velocity := ⟨p.velocity.x, JUMP_FORCE⟩, isGrounded := false }
  else p

/-- Input application, lines 184-193, in source order. -/
def applyInput (i : Input) (p : Player) : Player :=
  applyJump i.jump (applyRight i.right (applyLeft i.left p))

/-- The loop of lines 199-201: `checkCollision` against every platform in order. -/
def resolveAll (platforms : List Platform) (p : Player) : Player :=
  platforms.foldl checkCollision p

/-- Lines 184-201: input, `update`, grounded reset, collision pass. -/
def tick (platforms : List Platform) (i : Input) (p : Player) : Player :=
  resolveAll platforms { (applyInput i p).update with isGrounded := false }

/-- The platforms registered at lines 146-152, in registration order. -/
def startupPlatforms : List Platform :=
  [ Platform.new 0 550 800 50,
    Platform.new 200 450 100 20,
    Platform.new 400 350 100 20,
    Platform.new 600 250 100 20,
    Platform.new 100 200 80 20 ]

/-- The token loop of lines 203-212 for a fixed player rectangle: tokens and
score after the pass. -/
def pickupPass (playerBounds : FloatRect) : List Token → ℤ → List Token × ℤ
  | [], score => ([], score)
  | t :: ts, score =>
    if !t.collected then
      if playerBounds.intersects t.bounds then
        let r := pickupPass playerBounds ts (score + 10)
        ({ t with collected := true } :: r.1, r.2)
      else
        let r := pickupPass playerBounds ts score
        (t :: r.1, r.2)
    else
      let r := pickupPass playerBounds ts score
      (t :: r.1, r.2)

/-! ## Observers of the collision pass -/

/-- Path condition of the push-upward branch of `checkCollision` (lines 107-110):
the bounds intersect (line 87), `minOverlapX < minOverlapY` is false (line 98)
and `overlapTop < overlapBottom` (line 107). -/
def pushedUp (p : Player) (plat : Platform) : Bool :=
  p.shape.getGlobalBounds.intersects plat.shape.getGlobalBounds
    && !decide (minOverlapX p.shape.getGlobalBounds plat.shape.getGlobalBounds
        < minOverlapY p.shape.getGlobalBounds plat.shape.getGlobalBounds)
    && decide (overlapTop p.shape.getGlobalBounds plat.shape.getGlobalBounds
        < overlapBottom p.shape.getGlobalBounds plat.shape.getGlobalBounds)

/-- For each platform of the pass, in order, whether `checkCollision` took the
push-upward branch on the body state it was called with. -/
def resolveTrace : List Platform → Player → List Bool
  | [], _ => []
  | plat :: rest, p => pushedUp p plat :: resolveTrace rest (checkCollision p plat)

/-! ## Concrete scenarios -/

/-- A 30×30 body without outline at `(x, y)` with velocity `(vx, vy)`. -/
def bodyAt (x y vx vy : ℚ) (grounded : Bool) : Player :=
  { shape := { position := ⟨x, y⟩, size := ⟨30, 30⟩, outlineThickness := 0 }
    velocity := ⟨vx, vy⟩
    isGrounded := grounded }

/-- An obstacle whose bounds are exactly `(x, y, w, h)` (no outline). -/
def obstacleWithBounds (x y w h : ℚ) : Platform :=
  { shape := { position := ⟨x, y⟩, size := ⟨w, h⟩, outlineThickness := 0 } }

/-- Left held, right and jump released. -/
def holdLeft : Input := { left := true, right := false, jump := false }

/-- No key held. -/
def noInput : Input := { left := false, right := false, jump := false }

/-- Right held, left and jump released. -/
def holdRight : Input := { left := false, right := true, jump := false }

/-- Jump held, left and right released. -/
def holdJump : Input := { left := false, right := false, jump := true }

/-- Successive frames of the game loop (lines 164-201), one input per frame. -/
def runTicks (platforms : List Platform) (inputs : List Input) (p : Player) : Player :=
  inputs.foldl (fun q i => tick platforms i q) p

/-! ## Geometry lemmas -/

/-- The intersection test unfolded to the comparison of line `if ((interLeft <
interRight) && (interTop < interBottom))`. -/
theorem intersects_iff (a b : FloatRect) :
    a.intersects b = true ↔
      (max (min a.position.x (a.position.x + a.size.x)) (min b.position.x (b.position.x + b.size.x))
          < min (max a.position.x (a.position.x + a.size.x)) (max b.position.x (b.position.x + b.size.x)))
      ∧ (max (min a.position.y (a.position.y + a.size.y)) (min b.position.y (b.position.y + b.size.y))
          < min (max a.position.y (a.position.y + a.size.y)) (max b.position.y (b.position.y + b.size.y))) := by
  unfold FloatRect.intersects FloatRect.findIntersection
  simp only []
  split_ifs with h
  · simpa using h
  · simpa using h

/-- For rectangles of non-negative size the test is the usual strict overlap on
both axes. -/
theorem intersects_iff_of_nonneg (a b : FloatRect)
    (hax : 0 ≤ a.size.x) (hay : 0 ≤ a.size.y) (hbx : 0 ≤ b.size.x) (hby : 0 ≤ b.size.y) :
    a.intersects b = true ↔
      (a.position.x < b.position.x + b.size.x ∧ b.position.x < a.position.x + a.size.x
        ∧ 0 < a.size.x ∧ 0 < b.size.x)
      ∧ (a.position.y < b.position.y + b.size.y ∧ b.position.y < a.position.y + a.size.y
        ∧ 0 < a.size.y ∧ 0 < b.size.y) := by
  rw [intersects_iff]
  rw [min_eq_left (by linarith : a.position.x ≤ a.position.x + a.size.x),
    min_eq_left (by linarith : b.position.x ≤ b.position.x + b.size.x),
    max_eq_right (by linarith : a.position.x ≤ a.position.x + a.size.x),
    max_eq_right (by linarith : b.position.x ≤ b.position.x + b.size.x),
    min_eq_left (by linarith : a.position.y ≤ a.position.y + a.size.y),
    min_eq_left (by linarith : b.position.y ≤ b.position.y + b.size.y),
    max_eq_right (by linarith : a.position.y ≤ a.position.y + a.size.y),
    max_eq_right (by linarith : b.position.y ≤ b.position.y + b.size.y)]
  simp only [max_lt_iff, lt_min_iff]
  constructor
  · rintro ⟨⟨⟨h1, h2⟩, h3, h4⟩, ⟨h5, h6⟩, h7, h8⟩
    refine ⟨⟨?_, ?_, ?_, ?_⟩, ?_, ?_, ?_, ?_⟩ <;> linarith
  · rintro ⟨⟨h1, h2, h3, h4⟩, h5, h6, h7, h8⟩
    refine ⟨⟨⟨?_, ?_⟩, ?_, ?_⟩, ⟨?_, ?_⟩, ?_, ?_⟩ <;> linarith

/-- C1: for a body and an obstacle whose bounds have non-negative width and
height, the body's bounds after `checkCollision` do not intersect the
obstacle's bounds (strict positive-area overlap test). -/
theorem checkCollision_separates (p : Player) (plat : Platform)
    (hpw : 0 ≤ p.shape.getGlobalBounds.size.x) (hph : 0 ≤ p.shape.getGlobalBounds.size.y)
    (hww : 0 ≤ plat.shape.getGlobalBounds.size.x) (hwh : 0 ≤ plat.shape.getGlobalBounds.size.y) :
    (checkCollision p plat).shape.getGlobalBounds.intersects plat.shape.getGlobalBounds = false := by
  by_cases hI : p.shape.getGlobalBounds.intersects plat.shape.getGlobalBounds = true
  · have hne : ∀ q : Player, q.shape.getGlobalBounds.size = p.shape.getGlobalBounds.size →
        (q.shape.getGlobalBounds.position.x + q.shape.getGlobalBounds.size.x
            ≤ plat.shape.getGlobalBounds.position.x
          ∨ plat.shape.getGlobalBounds.position.x + plat.shape.getGlobalBounds.size.x
            ≤ q.shape.getGlobalBounds.position.x
          ∨ q.shape.getGlobalBounds.position.y + q.shape.getGlobalBounds.size.y
            ≤ plat.shape.getGlobalBounds.position.y
          ∨ plat.shape.getGlobalBounds.position.y + plat.shape.getGlobalBounds.size.y
            ≤ q.shape.getGlobalBounds.position.y) →
        q.shape.getGlobalBounds.intersects plat.shape.getGlobalBounds = false := by
      intro q hs hq
      rw [← Bool.not_eq_true, intersects_iff_of_nonneg _ _ (by rw [hs]; exact hpw)
        (by rw [hs]; exact hph) hww hwh]
      rintro ⟨⟨h1, h2, -, -⟩, h3, h4, -, -⟩
      rcases hq with h | h | h | h <;> linarith
    apply hne
    · unfold checkCollision
      simp only [hI, if_true]
      split_ifs <;> rfl
    · unfold checkCollision
      simp only [hI, if_true]
      split_ifs
      · left
        simp [RectangleShape.getGlobalBounds, RectangleShape.move, overlapLeft]
        linarith
      · right; left
        simp [RectangleShape.getGlobalBounds, RectangleShape.move, overlapRight]
        linarith
      · right; right; left
        simp [RectangleShape.getGlobalBounds, RectangleShape.move, overlapTop]
        linarith
      · right; right; right
        simp [RectangleShape.getGlobalBounds, RectangleShape.move, overlapBottom]
        linarith
  · unfold checkCollision
    simp only [hI]
    simpa using hI


/-- C1 at body bounds (100,100,30,30) and obstacle bounds (90,125,200,20). -/
theorem checkCollision_separates_witness :
    (0 ≤ (bodyAt 100 100 0 3 false).shape.getGlobalBounds.size.x
      ∧ 0 ≤ (bodyAt 100 100 0 3 false).shape.getGlobalBounds.size.y
      ∧ 0 ≤ (obstacleWithBounds 90 125 200 20).shape.getGlobalBounds.size.x
      ∧ 0 ≤ (obstacleWithBounds 90 125 200 20).shape.getGlobalBounds.size.y)
    ∧ (checkCollision (bodyAt 100 100 0 3 false)
          (obstacleWithBounds 90 125 200 20)).shape.getGlobalBounds.intersects
        (obstacleWithBounds 90 125 200 20).shape.getGlobalBounds = false :=
  ⟨by norm_num [bodyAt, obstacleWithBounds, RectangleShape.getGlobalBounds],
    checkCollision_separates (bodyAt 100 100 0 3 false) (obstacleWithBounds 90 125 200 20)
      (by norm_num [bodyAt, RectangleShape.getGlobalBounds])
      (by norm_num [bodyAt, RectangleShape.getGlobalBounds])
      (by norm_num [obstacleWithBounds, RectangleShape.getGlobalBounds])
      (by norm_num [obstacleWithBounds, RectangleShape.getGlobalBounds])⟩

/-- C2: for intersecting bounds, when `minOverlapX < minOverlapY` only the x
position changes (left by `overlapLeft` if `overlapLeft < overlapRight`, else
right by `overlapRight`) and y is unchanged; otherwise, ties included, only the
y position changes (up by `overlapTop` if `overlapTop < overlapBottom`, else
down by `overlapBottom`) and x is unchanged. -/
theorem checkCollision_axis_selection (p : Player) (plat : Platform)
    (hI : p.shape.getGlobalBounds.intersects plat.shape.getGlobalBounds = true) :
    (minOverlapX p.shape.getGlobalBounds plat.shape.getGlobalBounds
        < minOverlapY p.shape.getGlobalBounds plat.shape.getGlobalBounds →
      (checkCollision p plat).shape.position.y = p.shape.position.y
      ∧ (checkCollision p plat).shape.position.x =
          if overlapLeft p.shape.getGlobalBounds plat.shape.getGlobalBounds
              < overlapRight p.shape.getGlobalBounds plat.shape.getGlobalBounds
          then p.shape.position.x - overlapLeft p.shape.getGlobalBounds plat.shape.getGlobalBounds
          else p.shape.position.x + overlapRight p.shape.getGlobalBounds plat.shape.getGlobalBounds)
    ∧ (minOverlapY p.shape.getGlobalBounds plat.shape.getGlobalBounds
        ≤ minOverlapX p.shape.getGlobalBounds plat.shape.getGlobalBounds →
      (checkCollision p plat).shape.position.x = p.shape.position.x
      ∧ (checkCollision p plat).shape.position.y =
          if overlapTop p.shape.getGlobalBounds plat.shape.getGlobalBounds
              < overlapBottom p.shape.getGlobalBounds plat.shape.getGlobalBounds
          then p.shape.position.y - overlapTop p.shape.getGlobalBounds plat.shape.getGlobalBounds
          else p.shape.position.y + overlapBottom p.shape.getGlobalBounds plat.shape.getGlobalBounds) := by
  constructor
  · intro hx
    unfold checkCollision
    simp only [hI, if_true, hx]
    split_ifs <;> simp [RectangleShape.move, sub_eq_add_neg]
  · intro hy
    unfold checkCollision
    simp only [hI, if_true, not_lt.mpr hy, if_false]
    split_ifs <;> simp [RectangleShape.move, sub_eq_add_neg]

/-- C2 at a horizontal case: body bounds (100,100,30,30) against obstacle
bounds (125,90,20,200) is pushed left by 5 and keeps its y position. -/
theorem checkCollision_axis_selection_witness :
    (bodyAt 100 100 0 3 false).shape.getGlobalBounds.intersects
        (obstacleWithBounds 125 90 20 200).shape.getGlobalBounds = true
    ∧ (checkCollision (bodyAt 100 100 0 3 false)
          (obstacleWithBounds 125 90 20 200)).shape.position.x = 95
    ∧ (checkCollision (bodyAt 100 100 0 3 false)
          (obstacleWithBounds 125 90 20 200)).shape.position.y = 100 := by
  have hI : (bodyAt 100 100 0 3 false).shape.getGlobalBounds.intersects
      (obstacleWithBounds 125 90 20 200).shape.getGlobalBounds = true := by
    rw [intersects_iff]
    norm_num [bodyAt, obstacleWithBounds, RectangleShape.getGlobalBounds]
  have h := (checkCollision_axis_selection (bodyAt 100 100 0 3 false)
    (obstacleWithBounds 125 90 20 200) hI).1
    (by norm_num [minOverlapX, minOverlapY, overlapLeft, overlapRight, overlapTop,
      overlapBottom, bodyAt, obstacleWithBounds, RectangleShape.getGlobalBounds])
  refine ⟨hI, ?_, ?_⟩
  · rw [h.2]
    norm_num [overlapLeft, overlapRight, bodyAt, obstacleWithBounds,
      RectangleShape.getGlobalBounds]
  · rw [h.1]
    rfl

theorem checkCollision_isGrounded (p : Player) (plat : Platform) :
    (checkCollision p plat).isGrounded = (p.isGrounded || pushedUp p plat) := by
  unfold checkCollision pushedUp
  by_cases hI : p.shape.getGlobalBounds.intersects plat.shape.getGlobalBounds = true
  · simp only [hI, if_true]
    split_ifs <;> simp [*]
  · simp [hI]

theorem resolveAll_isGrounded (platforms : List Platform) (p : Player) :
    (resolveAll platforms p).isGrounded = true ↔
      p.isGrounded = true ∨ true ∈ resolveTrace platforms p := by
  induction platforms generalizing p with
  | nil => simp [resolveAll, resolveTrace]
  | cons plat rest ih =>
    have hstep : resolveAll (plat :: rest) p = resolveAll rest (checkCollision p plat) := rfl
    rw [hstep, ih, checkCollision_isGrounded]
    simp only [resolveTrace, List.mem_cons, Bool.or_eq_true]
    constructor
    · rintro ((h | h) | h)
      · exact Or.inl h
      · exact Or.inr (Or.inl h.symm)
      · exact Or.inr (Or.inr h)
    · rintro (h | h | h)
      · exact Or.inl (Or.inl h)
      · exact Or.inl (Or.inr h.symm)
      · exact Or.inr h

/-- C4: for every pre-tick state, input and ordered platform list, `isGrounded`
is true at the end of the tick iff `checkCollision` took the push-upward branch
(vertical axis, `overlapTop < overlapBottom`) for at least one platform of the
resolution pass, which starts from the updated body with `isGrounded` reset. -/
theorem tick_isGrounded_iff (platforms : List Platform) (i : Input) (p : Player) :
    (tick platforms i p).isGrounded = true ↔
      true ∈ resolveTrace platforms { (applyInput i p).update with isGrounded := false } := by
  unfold tick
  rw [resolveAll_isGrounded]
  simp

/-! ## Horizontal velocity under held input -/

theorem update_of_fall (p : Player)
    (h : p.shape.position.y + (p.velocity.y + GRAVITY) > 600) :
    p.update.shape.position = ⟨50, 400⟩ ∧ p.update.velocity = ⟨0, 0⟩ := by
  unfold Player.update
  simp only [RectangleShape.move, h, if_true]
  exact ⟨rfl, trivial⟩

theorem applyInput_shape (i : Input) (p : Player) : (applyInput i p).shape = p.shape := by
  unfold applyInput applyJump applyRight applyLeft
  split_ifs <;> rfl

theorem update_size (p : Player) :
    p.update.shape.size = p.shape.size
      ∧ p.update.shape.outlineThickness = p.shape.outlineThickness := by
  unfold Player.update
  simp only [RectangleShape.move, RectangleShape.setPosition]
  split_ifs <;> exact ⟨rfl, rfl⟩

theorem checkCollision_size (p : Player) (plat : Platform) :
    (checkCollision p plat).shape.size = p.shape.size
      ∧ (checkCollision p plat).shape.outlineThickness = p.shape.outlineThickness := by
  unfold checkCollision
  simp only [RectangleShape.move]
  split_ifs <;> exact ⟨rfl, rfl⟩

theorem checkCollision_of_not_intersects (p : Player) (plat : Platform)
    (h : p.shape.getGlobalBounds.intersects plat.shape.getGlobalBounds = false) :
    checkCollision p plat = p := by
  unfold checkCollision
  simp [h]

/-- The y position after `checkCollision` is the old one, or the one that puts
the body's bottom edge on the wall's top edge, or its top edge on the wall's
bottom edge; the last case zeroes `velocity.y` and keeps `isGrounded`. -/
theorem checkCollision_y_cases (p : Player) (plat : Platform) :
    (checkCollision p plat).shape.position.y = p.shape.position.y
      ∨ (checkCollision p plat).shape.position.y
          = plat.shape.getGlobalBounds.position.y
              - (p.shape.size.y + p.shape.outlineThickness)
      ∨ ((checkCollision p plat).shape.position.y
          = plat.shape.getGlobalBounds.position.y + plat.shape.getGlobalBounds.size.y
              + p.shape.outlineThickness
        ∧ (checkCollision p plat).velocity.y = 0
        ∧ (checkCollision p plat).isGrounded = p.isGrounded) := by
  unfold checkCollision
  simp only [RectangleShape.move, overlapTop, overlapBottom, RectangleShape.getGlobalBounds]
  split_ifs
  · left; simp
  · left; simp
  · right; left; simp only []; ring
  · right; right; refine ⟨?_, rfl, rfl⟩; simp only []; ring
  · left; rfl

theorem update_y_le (p : Player) : p.update.shape.position.y ≤ 600 := by
  unfold Player.update
  simp only [RectangleShape.move, RectangleShape.setPosition]
  split_ifs <;> norm_num <;> linarith

theorem applyInput_velocity_y_of_not_grounded (i : Input) (p : Player)
    (hg : p.isGrounded = false) :
    (applyInput i p).velocity.y = p.velocity.y := by
  have h1 : (applyLeft i.left p).isGrounded = false := by
    unfold applyLeft; split_ifs <;> exact hg
  have h2 : (applyRight i.right (applyLeft i.left p)).isGrounded = false := by
    unfold applyRight; split_ifs <;> exact h1
  have h3 : (applyLeft i.left p).velocity.y = p.velocity.y := by
    unfold applyLeft; split_ifs <;> rfl
  have h4 : (applyRight i.right (applyLeft i.left p)).velocity.y = p.velocity.y := by
    unfold applyRight; split_ifs <;> exact h3
  unfold applyInput applyJump
  simp [h2, h4]

theorem player_eq_bodyAt (p : Player) (x y vx vy : ℚ) (g : Bool)
    (h1 : p.shape.position = ⟨x, y⟩) (h2 : p.shape.size = ⟨30, 30⟩)
    (h3 : p.shape.outlineThickness = 0) (h4 : p.velocity = ⟨vx, vy⟩)
    (h5 : p.isGrounded = g) : p = bodyAt x y vx vy g := by
  obtain ⟨⟨pos, size, t⟩, v, gr⟩ := p
  simp only at h1 h2 h3 h4 h5
  simp [bodyAt, h1, h2, h3, h4, h5]

/-- One step of the pass on a 30×30 body against a wall that ends at or above
`y = 600`: a body that is at `y ≤ 600`, or that sits at `y = 602` with zero
vertical velocity and not grounded, stays so. -/
theorem checkCollision_fall_step (p : Player) (plat : Platform)
    (hsize : p.shape.size = ⟨30, 30⟩) (hout : p.shape.outlineThickness = 0)
    (hw : 0 ≤ plat.shape.getGlobalBounds.size.x) (hh : 0 ≤ plat.shape.getGlobalBounds.size.y)
    (hb : plat.shape.getGlobalBounds.position.y + plat.shape.getGlobalBounds.size.y ≤ 600)
    (hp : p.shape.position.y ≤ 600
      ∨ (p.shape.position.y = 602 ∧ p.velocity.y = 0 ∧ p.isGrounded = false)) :
    (checkCollision p plat).shape.position.y ≤ 600
      ∨ ((checkCollision p plat).shape.position.y = 602
        ∧ (checkCollision p plat).velocity.y = 0
        ∧ (checkCollision p plat).isGrounded = false) := by
  rcases hp with hp | hp
  · left
    rcases checkCollision_y_cases p plat with h | h | h
    · rw [h]; exact hp
    · rw [h, hsize, hout]; simp only []; linarith
    · rw [h.1, hout]; linarith
  · right
    have hno : p.shape.getGlobalBounds.intersects plat.shape.getGlobalBounds = false := by
      rw [← Bool.not_eq_true, intersects_iff_of_nonneg _ _
        (by simp [RectangleShape.getGlobalBounds, hsize, hout])
        (by simp [RectangleShape.getGlobalBounds, hsize, hout]) hw hh]
      rintro ⟨-, h3, -, -, -⟩
      simp only [RectangleShape.getGlobalBounds, hout, hp.1] at h3 hb
      linarith
    rw [checkCollision_of_not_intersects p plat hno]
    exact hp

theorem resolveAll_fall (platforms : List Platform) (p : Player)
    (hsize : p.shape.size = ⟨30, 30⟩) (hout : p.shape.outlineThickness = 0)
    (hpl : ∀ plat ∈ platforms, 0 ≤ plat.shape.getGlobalBounds.size.x
      ∧ 0 ≤ plat.shape.getGlobalBounds.size.y
      ∧ plat.shape.getGlobalBounds.position.y + plat.shape.getGlobalBounds.size.y ≤ 600)
    (hp : p.shape.position.y ≤ 600
      ∨ (p.shape.position.y = 602 ∧ p.velocity.y = 0 ∧ p.isGrounded = false)) :
    (resolveAll platforms p).shape.position.y ≤ 600
      ∨ ((resolveAll platforms p).shape.position.y = 602
        ∧ (resolveAll platforms p).velocity.y = 0
        ∧ (resolveAll platforms p).isGrounded = false) := by
  induction platforms generalizing p with
  | nil => exact hp
  | cons plat rest ih =>
    have hstep : resolveAll (plat :: rest) p = resolveAll rest (checkCollision p plat) := rfl
    rw [hstep]
    have hs := checkCollision_size p plat
    have h0 := hpl plat (List.mem_cons_self _ _)
    exact ih (checkCollision p plat) (by rw [hs.1, hsize]) (by rw [hs.2, hout])
      (fun q hq => hpl q (List.mem_cons_of_mem _ hq))
      (checkCollision_fall_step p plat hsize hout h0.1 h0.2.1 h0.2.2 hp)

theorem resolveAll_size (platforms : List Platform) (p : Player) :
    (resolveAll platforms p).shape.size = p.shape.size
      ∧ (resolveAll platforms p).shape.outlineThickness = p.shape.outlineThickness := by
  induction platforms generalizing p with
  | nil => exact ⟨rfl, rfl⟩
  | cons plat rest ih =>
    have hstep : resolveAll (plat :: rest) p = resolveAll rest (checkCollision p plat) := rfl
    rw [hstep, (ih (checkCollision p plat)).1, (ih (checkCollision p plat)).2]
    exact checkCollision_size p plat

/-- A 30×30 body that ends a tick against the startup platforms below the
window sits at `y = 602` (pushed out of the underside of the ground platform)
with zero vertical velocity and is not grounded. -/
theorem tick_below_window (p : Player) (i : Input)
    (hsize : p.shape.size = ⟨30, 30⟩) (hout : p.shape.outlineThickness = 0)
    (hy : (tick startupPlatforms i p).shape.position.y > 600) :
    (tick startupPlatforms i p).shape.position.y = 602
      ∧ (tick startupPlatforms i p).velocity.y = 0
      ∧ (tick startupPlatforms i p).isGrounded = false := by
  have hs := update_size (applyInput i p)
  rw [applyInput_shape, hsize, hout] at hs
  have hu := update_y_le (applyInput i p)
  have hstep : tick startupPlatforms i p
      = resolveAll [Platform.new 200 450 100 20, Platform.new 400 350 100 20,
          Platform.new 600 250 100 20, Platform.new 100 200 80 20]
        (checkCollision { (applyInput i p).update with isGrounded := false }
          (Platform.new 0 550 800 50)) := rfl
  have hg : (checkCollision { (applyInput i p).update with isGrounded := false }
        (Platform.new 0 550 800 50)).shape.position.y ≤ 600
      ∨ ((checkCollision { (applyInput i p).update with isGrounded := false }
          (Platform.new 0 550 800 50)).shape.position.y = 602
        ∧ (checkCollision { (applyInput i p).update with isGrounded := false }
          (Platform.new 0 550 800 50)).velocity.y = 0
        ∧ (checkCollision { (applyInput i p).update with isGrounded := false }
          (Platform.new 0 550 800 50)).isGrounded = false) := by
    rcases checkCollision_y_cases { (applyInput i p).update with isGrounded := false }
      (Platform.new 0 550 800 50) with h | h | h
    · left; rw [h]; exact hu
    · left; rw [h]
      simp only [hs.1, hs.2]
      norm_num [Platform.new, RectangleShape.getGlobalBounds]
    · right
      refine ⟨?_, h.2.1, h.2.2⟩
      rw [h.1]
      simp only [hs.2]
      norm_num [Platform.new, RectangleShape.getGlobalBounds]
  have hsz := checkCollision_size { (applyInput i p).update with isGrounded := false }
    (Platform.new 0 550 800 50)
  have hfin := resolveAll_fall [Platform.new 200 450 100 20, Platform.new 400 350 100 20,
      Platform.new 600 250 100 20, Platform.new 100 200 80 20]
    (checkCollision { (applyInput i p).update with isGrounded := false }
      (Platform.new 0 550 800 50))
    (by rw [hsz.1]; exact hs.1) (by rw [hsz.2]; exact hs.2)
    (by
      intro plat hplat
      simp only [List.mem_cons, List.mem_singleton, List.not_mem_nil, or_false] at hplat
      rcases hplat with h | h | h | h <;> subst h <;>
        norm_num [Platform.new, RectangleShape.getGlobalBounds])
    hg
  rw [← hstep] at hfin
  rcases hfin with h | h
  · exact absurd hy (not_lt.mpr h)
  · exact h

theorem tick_size (platforms : List Platform) (i : Input) (p : Player) :
    (tick platforms i p).shape.size = p.shape.size
      ∧ (tick platforms i p).shape.outlineThickness = p.shape.outlineThickness := by
  have hs := update_size (applyInput i p)
  rw [applyInput_shape] at hs
  have hr := resolveAll_size platforms { (applyInput i p).update with isGrounded := false }
  unfold tick
  exact ⟨hr.1.trans hs.1, hr.2.trans hs.2⟩

/-- At the spawn point the 30×30 body touches none of the startup platforms. -/
theorem resolveAll_at_spawn :
    resolveAll startupPlatforms (bodyAt 50 400 0 0 false) = bodyAt 50 400 0 0 false := by
  have hno : ∀ plat ∈ startupPlatforms,
      (bodyAt 50 400 0 0 false).shape.getGlobalBounds.intersects
        plat.shape.getGlobalBounds = false := by
    intro plat hplat
    simp only [startupPlatforms, List.mem_cons, List.mem_singleton, List.not_mem_nil,
      or_false] at hplat
    rw [← Bool.not_eq_true, intersects_iff]
    rcases hplat with h | h | h | h | h <;> subst h <;>
      norm_num [Platform.new, bodyAt, RectangleShape.getGlobalBounds]
  have hall : ∀ platforms : List Platform,
      (∀ plat ∈ platforms, (bodyAt 50 400 0 0 false).shape.getGlobalBounds.intersects
        plat.shape.getGlobalBounds = false) →
      resolveAll platforms (bodyAt 50 400 0 0 false) = bodyAt 50 400 0 0 false := by
    intro platforms
    induction platforms with
    | nil => intro _; rfl
    | cons plat rest ih =>
      intro h
      have hstep : resolveAll (plat :: rest) (bodyAt 50 400 0 0 false)
          = resolveAll rest (checkCollision (bodyAt 50 400 0 0 false) plat) := rfl
      rw [hstep, checkCollision_of_not_intersects _ _ (h plat (List.mem_cons_self _ _))]
      exact ih (fun q hq => h q (List.mem_cons_of_mem _ hq))
  exact hall startupPlatforms hno

/-- C7: for the 30×30 body and the startup platforms, whenever a tick ends with
the body's y position above 600, the next full tick, under every input, ends
with the body at the spawn `(50, 400)` with velocity `(0, 0)`. -/
theorem tick_respawns_after_fall (q : Player) (i1 i2 : Input)
    (hsize : q.shape.size = ⟨30, 30⟩) (hout : q.shape.outlineThickness = 0)
    (hy : (tick startupPlatforms i1 q).shape.position.y > 600) :
    (tick startupPlatforms i2 (tick startupPlatforms i1 q)).shape.position = ⟨50, 400⟩
    ∧ (tick startupPlatforms i2 (tick startupPlatforms i1 q)).velocity = ⟨0, 0⟩ := by
  obtain ⟨h602, hvy, hgr⟩ := tick_below_window q i1 hsize hout hy
  have hsz := tick_size startupPlatforms i1 q
  rw [hsize, hout] at hsz
  generalize tick startupPlatforms i1 q = r at h602 hvy hgr hsz
  have hfall : (applyInput i2 r).shape.position.y + ((applyInput i2 r).velocity.y + GRAVITY)
      > 600 := by
    rw [applyInput_shape, applyInput_velocity_y_of_not_grounded i2 r hgr, h602, hvy]
    norm_num [GRAVITY]
  have hu := update_of_fall (applyInput i2 r) hfall
  have hs := update_size (applyInput i2 r)
  rw [applyInput_shape, hsz.1, hsz.2] at hs
  have hp2 : ({ (applyInput i2 r).update with isGrounded := false } : Player)
      = bodyAt 50 400 0 0 false :=
    player_eq_bodyAt _ 50 400 0 0 false hu.1 hs.1 hs.2 hu.2 rfl
  unfold tick
  rw [hp2, resolveAll_at_spawn]
  exact ⟨rfl, rfl⟩

/-- C7 scenario: the body at `(100, 580)` at rest is integrated to `y = 580.6`
inside the ground platform and pushed out below it to `y = 602 > 600`; the
next tick, even with jump held, ends at the spawn with zero velocity. -/
theorem tick_respawns_after_fall_witness :
    ((bodyAt 100 580 0 0 false).shape.size = ⟨30, 30⟩
      ∧ (bodyAt 100 580 0 0 false).shape.outlineThickness = 0
      ∧ (tick startupPlatforms noInput (bodyAt 100 580 0 0 false)).shape.position.y = 602)
    ∧ (tick startupPlatforms holdJump
          (tick startupPlatforms noInput (bodyAt 100 580 0 0 false))).shape.position
        = ⟨50, 400⟩
    ∧ (tick startupPlatforms holdJump
          (tick startupPlatforms noInput (bodyAt 100 580 0 0 false))).velocity = ⟨0, 0⟩ := by
  have h : (tick startupPlatforms noInput (bodyAt 100 580 0 0 false)).shape.position.y
      = 602 := by
    norm_num [tick, resolveAll, startupPlatforms, Platform.new, noInput, bodyAt, applyInput,
      applyJump, applyRight, applyLeft, Player.update, checkCollision, minOverlapX,
      minOverlapY, overlapLeft, overlapRight, overlapTop, overlapBottom,
      FloatRect.intersects, FloatRect.findIntersection, RectangleShape.getGlobalBounds,
      RectangleShape.move, RectangleShape.setPosition, GRAVITY, FRICTION]
  exact ⟨⟨rfl, rfl, h⟩,
    tick_respawns_after_fall (bodyAt 100 580 0 0 false) noInput holdJump rfl rfl
      (by rw [h]; norm_num)⟩

/-! ## Integration step -/

/-- C11: for a body of width `w ≤ 800` (in particular `0 ≤ w ≤ 800`) whose
integrated y position `y + velocity.y + GRAVITY` is at most 600,
`Player::update` gives velocity
`(FRICTION * velocity.x, velocity.y + GRAVITY)`, `y' = y + velocity'.y` and
`x' = x + velocity'.x` clamped into `[0, 800 - w]`; the horizontal velocity is
`FRICTION * velocity.x` whether or not the clamp fires. -/
theorem update_integrates (p : Player)
    (hw : p.shape.size.x ≤ 800)
    (hy : p.shape.position.y + p.velocity.y + GRAVITY ≤ 600) :
    p.update.velocity = ⟨17 / 20 * p.velocity.x, p.velocity.y + 3 / 5⟩
    ∧ p.update.shape.position.y = p.shape.position.y + p.update.velocity.y
    ∧ p.update.shape.position.x
        = max 0 (min (800 - p.shape.size.x) (p.shape.position.x + p.update.velocity.x))
    ∧ p.update.shape.size = p.shape.size
    ∧ p.update.isGrounded = p.isGrounded := by
  have hy' : ¬ p.shape.position.y + (p.velocity.y + GRAVITY) > 600 := by
    rw [not_lt]; linarith
  unfold Player.update
  simp only [RectangleShape.move, RectangleShape.setPosition, hy', if_false]
  refine ⟨?_, ?_, ?_, ?_, ?_⟩
  · simp [FRICTION, GRAVITY, mul_comm]
  · split_ifs <;> rfl
  · simp only [FRICTION, GRAVITY]
    by_cases hA : p.shape.position.x + p.velocity.x * (17 / 20) < 0
    · have hB : ¬ p.shape.position.x + p.velocity.x * (17 / 20) + p.shape.size.x > 800 := by
        rw [not_lt]; linarith
      simp only [hA, hB, if_true, if_false]
      rw [max_eq_left]
      exact le_trans (min_le_right _ _) (le_of_lt hA)
    · by_cases hB : p.shape.position.x + p.velocity.x * (17 / 20) + p.shape.size.x > 800
      · simp only [hA, hB, if_true, if_false]
        rw [min_eq_left (by linarith), max_eq_right (by linarith)]
      · simp only [hA, hB, if_false]
        rw [not_lt] at hA hB
        rw [min_eq_right (by linarith), max_eq_right hA]
  · split_ifs <;> rfl
  · trivial

/-- C11 at a clamped case: the 30×30 body at `(765, 100)` with velocity
`(20, 0)` ends at `x = 770` with velocity `(17, 0.6)`. -/
theorem update_integrates_witness :
    ((bodyAt 765 100 20 0 false).shape.size.x ≤ 800
      ∧ (bodyAt 765 100 20 0 false).shape.position.y
          + (bodyAt 765 100 20 0 false).velocity.y + GRAVITY ≤ 600)
    ∧ (bodyAt 765 100 20 0 false).update.velocity = ⟨17, 3 / 5⟩
    ∧ (bodyAt 765 100 20 0 false).update.shape.position.x = 770 := by
  have h := update_integrates (bodyAt 765 100 20 0 false)
    (by norm_num [bodyAt]) (by norm_num [bodyAt, GRAVITY])
  refine ⟨by norm_num [bodyAt, GRAVITY], ?_, ?_⟩
  · rw [h.1]; norm_num [bodyAt]
  · rw [h.2.2.1, h.1]; norm_num [bodyAt]

/-! ## Velocity after a resolved collision, jump, and the no-op case -/

/-- C12: for intersecting bounds, a horizontal resolution
(`minOverlapX < minOverlapY`) leaves `velocity.x = 0` and a vertical resolution
(otherwise) leaves `velocity.y = 0`; the other component is untouched. -/
theorem checkCollision_zeroes_velocity (p : Player) (plat : Platform)
    (hI : p.shape.getGlobalBounds.intersects plat.shape.getGlobalBounds = true) :
    (minOverlapX p.shape.getGlobalBounds plat.shape.getGlobalBounds
        < minOverlapY p.shape.getGlobalBounds plat.shape.getGlobalBounds →
      (checkCollision p plat).velocity.x = 0
      ∧ (checkCollision p plat).velocity.y = p.velocity.y)
    ∧ (¬ minOverlapX p.shape.getGlobalBounds plat.shape.getGlobalBounds
        < minOverlapY p.shape.getGlobalBounds plat.shape.getGlobalBounds →
      (checkCollision p plat).velocity.y = 0
      ∧ (checkCollision p plat).velocity.x = p.velocity.x) := by
  constructor
  · intro hx
    unfold checkCollision
    simp only [hI, if_true, hx]
    split_ifs <;> exact ⟨rfl, rfl⟩
  · intro hy
    unfold checkCollision
    simp only [hI, if_true, hy, if_false]
    split_ifs <;> exact ⟨rfl, rfl⟩

/-- C12 at a horizontal case: body bounds (100,100,30,30) with velocity
`(4, 3)` against obstacle bounds (125,90,20,200) ends with velocity `(0, 3)`. -/
theorem checkCollision_zeroes_velocity_witness :
    (bodyAt 100 100 4 3 false).shape.getGlobalBounds.intersects
        (obstacleWithBounds 125 90 20 200).shape.getGlobalBounds = true
    ∧ (checkCollision (bodyAt 100 100 4 3 false)
          (obstacleWithBounds 125 90 20 200)).velocity.x = 0
    ∧ (checkCollision (bodyAt 100 100 4 3 false)
          (obstacleWithBounds 125 90 20 200)).velocity.y = 3 := by
  have hI : (bodyAt 100 100 4 3 false).shape.getGlobalBounds.intersects
      (obstacleWithBounds 125 90 20 200).shape.getGlobalBounds = true := by
    rw [intersects_iff]
    norm_num [bodyAt, obstacleWithBounds, RectangleShape.getGlobalBounds]
  exact ⟨hI, (checkCollision_zeroes_velocity (bodyAt 100 100 4 3 false)
    (obstacleWithBounds 125 90 20 200) hI).1
    (by norm_num [minOverlapX, minOverlapY, overlapLeft, overlapRight, overlapTop,
      overlapBottom, bodyAt, obstacleWithBounds, RectangleShape.getGlobalBounds])⟩

/-- C14: the jump step with jump held and `isGrounded = true` sets `velocity.y`
to `-13` and clears `isGrounded`; with jump held and `isGrounded = false`, or
without jump, it leaves `velocity.y` and `isGrounded` as they are; in every
case `velocity.x` and the shape (position and size) are unchanged. -/
theorem applyJump_spec (jump : Bool) (p : Player) :
    (jump = true → p.isGrounded = true →
      (applyJump jump p).velocity.y = -13 ∧ (applyJump jump p).isGrounded = false)
    ∧ (jump = false ∨ p.isGrounded = false →
      (applyJump jump p).velocity.y = p.velocity.y
      ∧ (applyJump jump p).isGrounded = p.isGrounded)
    ∧ (applyJump jump p).velocity.x = p.velocity.x
    ∧ (applyJump jump p).shape = p.shape := by
  unfold applyJump JUMP_FORCE
  refine ⟨?_, ?_, ?_, ?_⟩
  · intro hj hg
    simp [hj, hg]
  · rintro (hj | hg)
    · simp [hj]
    · simp [hg]
  · split_ifs <;> rfl
  · split_ifs <;> rfl

/-- C14 on a grounded body with jump held, and on an airborne body with jump
held. -/
theorem applyJump_spec_witness :
    ((applyJump true (bodyAt 50 400 2 0 true)).velocity.y = -13
      ∧ (applyJump true (bodyAt 50 400 2 0 true)).isGrounded = false)
    ∧ ((applyJump true (bodyAt 50 400 2 7 false)).velocity.y = 7
      ∧ (applyJump true (bodyAt 50 400 2 7 false)).isGrounded = false) :=
  ⟨(applyJump_spec true (bodyAt 50 400 2 0 true)).1 rfl rfl,
    (applyJump_spec true (bodyAt 50 400 2 7 false)).2.1 (Or.inr rfl)⟩

/-- C16: when the body's bounds and the obstacle's bounds do not intersect,
`checkCollision` returns the body unchanged (position, size, velocity and
`isGrounded`). -/
theorem checkCollision_noop (p : Player) (plat : Platform)
    (h : p.shape.getGlobalBounds.intersects plat.shape.getGlobalBounds = false) :
    checkCollision p plat = p := by
  unfold checkCollision
  simp [h]

/-- C16 at touching edges: body bounds (0,0,30,30) and obstacle bounds
(30,0,50,50) share an edge only, and the body is returned unchanged. -/
theorem checkCollision_noop_witness :
    (bodyAt 0 0 4 3 true).shape.getGlobalBounds.intersects
        (obstacleWithBounds 30 0 50 50).shape.getGlobalBounds = false
    ∧ checkCollision (bodyAt 0 0 4 3 true) (obstacleWithBounds 30 0 50 50)
        = bodyAt 0 0 4 3 true := by
  have hI : (bodyAt 0 0 4 3 true).shape.getGlobalBounds.intersects
      (obstacleWithBounds 30 0 50 50).shape.getGlobalBounds = false := by
    rw [← Bool.not_eq_true, intersects_iff]
    norm_num [bodyAt, obstacleWithBounds, RectangleShape.getGlobalBounds]
  exact ⟨hI, checkCollision_noop _ _ hI⟩

/-! ## Idempotence of the pickup pass -/

theorem pickupPass_twice (playerBounds : FloatRect) (tokens : List Token) (score : ℤ) :
    pickupPass playerBounds (pickupPass playerBounds tokens score).1
        (pickupPass playerBounds tokens score).2
      = pickupPass playerBounds tokens score := by
  induction tokens generalizing score with
  | nil => rfl
  | cons t ts ih =>
    obtain ⟨b, c⟩ := t
    cases c <;> cases hI : playerBounds.intersects b <;> simp [pickupPass, hI, ih]

/-- C15: for fixed body bounds, running the pickup pass a second time changes
neither a collected flag nor the score; a single uncollected token that
intersects the body becomes collected with `score + 10` in the first pass and
the second pass leaves that result as it is. -/
theorem pickupPass_idempotent (playerBounds : FloatRect) (tokens : List Token) (score : ℤ) :
    pickupPass playerBounds (pickupPass playerBounds tokens score).1
        (pickupPass playerBounds tokens score).2
      = pickupPass playerBounds tokens score
    ∧ ∀ t : Token, t.collected = false → playerBounds.intersects t.bounds = true →
        pickupPass playerBounds [t] score = ([{ t with collected := true }], score + 10)
        ∧ pickupPass playerBounds [{ t with collected := true }] (score + 10)
            = ([{ t with collected := true }], score + 10) := by
  refine ⟨pickupPass_twice _ _ _, ?_⟩
  intro t hc hI
  simp [pickupPass, hc, hI]

/-- C15 scenario: an uncollected token at the body's position is collected with
the score going from 0 to 10, and a second pass changes nothing. -/
theorem pickupPass_idempotent_witness :
    (bodyAt 50 400 0 0 false).shape.getGlobalBounds.intersects
        (⟨⟨50, 400⟩, ⟨20, 20⟩⟩ : FloatRect) = true
    ∧ pickupPass (bodyAt 50 400 0 0 false).shape.getGlobalBounds
          [⟨⟨⟨50, 400⟩, ⟨20, 20⟩⟩, false⟩] 0
        = ([⟨⟨⟨50, 400⟩, ⟨20, 20⟩⟩, true⟩], 10)
    ∧ pickupPass (bodyAt 50 400 0 0 false).shape.getGlobalBounds
          [⟨⟨⟨50, 400⟩, ⟨20, 20⟩⟩, true⟩] 10
        = ([⟨⟨⟨50, 400⟩, ⟨20, 20⟩⟩, true⟩], 10) := by
  have hI : (bodyAt 50 400 0 0 false).shape.getGlobalBounds.intersects
      (⟨⟨50, 400⟩, ⟨20, 20⟩⟩ : FloatRect) = true := by
    rw [intersects_iff]
    norm_num [bodyAt, RectangleShape.getGlobalBounds]
  have h := (pickupPass_idempotent (bodyAt 50 400 0 0 false).shape.getGlobalBounds
    [] 0).2 ⟨⟨⟨50, 400⟩, ⟨20, 20⟩⟩, false⟩ rfl hI
  exact ⟨hI, h.1, h.2⟩

/-! ## Order dependence of the collision pass -/

/-- The body (0,0,30,30) checked against A = (25,-50,50,130) and then
B = (-50,-50,50,130) is pushed left by 5 and then right by 5, back to `x = 0`. -/
theorem resolve_A_then_B :
    (checkCollision (checkCollision (bodyAt 0 0 0 0 false)
        (obstacleWithBounds 25 (-50) 50 130))
      (obstacleWithBounds (-50) (-50) 50 130)).shape.position = ⟨0, 0⟩ := by
  norm_num [bodyAt, obstacleWithBounds, checkCollision, minOverlapX, minOverlapY,
    overlapLeft, overlapRight, overlapTop, overlapBottom, FloatRect.intersects,
    FloatRect.findIntersection, RectangleShape.getGlobalBounds, RectangleShape.move]

/-- Checked against B first the body only touches it, and A then pushes it left
to `x = -5`. -/
theorem resolve_B_then_A :
    (checkCollision (checkCollision (bodyAt 0 0 0 0 false)
        (obstacleWithBounds (-50) (-50) 50 130))
      (obstacleWithBounds 25 (-50) 50 130)).shape.position = ⟨-5, 0⟩ := by
  norm_num [bodyAt, obstacleWithBounds, checkCollision, minOverlapX, minOverlapY,
    overlapLeft, overlapRight, overlapTop, overlapBottom, FloatRect.intersects,
    FloatRect.findIntersection, RectangleShape.getGlobalBounds, RectangleShape.move]

/-- C17: collision resolution is order-dependent: there are a body and two
obstacles A and B for which `checkCollision` against A then B ends in a
different body state than against B then A (body (0,0,30,30),
A = (25,-50,50,130), B = (-50,-50,50,130): `x = 0` against `x = -5`). -/
theorem checkCollision_order_dependent :
    ∃ (p : Player) (a b : Platform),
      checkCollision (checkCollision p a) b ≠ checkCollision (checkCollision p b) a := by
  refine ⟨bodyAt 0 0 0 0 false, obstacleWithBounds 25 (-50) 50 130,
    obstacleWithBounds (-50) (-50) 50 130, ?_⟩
  intro h
  have hx := congrArg (fun q : Player => q.shape.position.x) h
  simp only [resolve_A_then_B, resolve_B_then_A] at hx
  norm_num at hx

/-- C18: separation from each obstacle does not lift to the whole pass: there
are a body and an ordered obstacle list such that after `checkCollision` has
run over the list in order the body's bounds still intersect an obstacle of
the list (body (0,0,30,30) with [A, B] as in C17 ends at `x = 0`, inside A). -/
theorem resolveAll_leaves_overlap :
    ∃ (p : Player) (platforms : List Platform) (plat : Platform),
      plat ∈ platforms
      ∧ (resolveAll platforms p).shape.getGlobalBounds.intersects
          plat.shape.getGlobalBounds = true := by
  refine ⟨bodyAt 0 0 0 0 false,
    [obstacleWithBounds 25 (-50) 50 130, obstacleWithBounds (-50) (-50) 50 130],
    obstacleWithBounds 25 (-50) 50 130, List.mem_cons_self _ _, ?_⟩
  have hstep : resolveAll
      [obstacleWithBounds 25 (-50) 50 130, obstacleWithBounds (-50) (-50) 50 130]
      (bodyAt 0 0 0 0 false)
      = checkCollision (checkCollision (bodyAt 0 0 0 0 false)
          (obstacleWithBounds 25 (-50) 50 130))
        (obstacleWithBounds (-50) (-50) 50 130) := rfl
  have hsz := checkCollision_size (checkCollision (bodyAt 0 0 0 0 false)
      (obstacleWithBounds 25 (-50) 50 130)) (obstacleWithBounds (-50) (-50) 50 130)
  have hsz0 := checkCollision_size (bodyAt 0 0 0 0 false)
      (obstacleWithBounds 25 (-50) 50 130)
  rw [hstep, intersects_iff]
  simp only [RectangleShape.getGlobalBounds, resolve_A_then_B, hsz.1, hsz.2, hsz0.1, hsz0.2]
  norm_num [bodyAt, obstacleWithBounds]

/-! ## Minimum translation -/

/-- For intersecting rectangles of non-negative size the four overlap depths
are positive. -/
theorem overlaps_pos (a b : FloatRect)
    (hax : 0 ≤ a.size.x) (hay : 0 ≤ a.size.y) (hbx : 0 ≤ b.size.x) (hby : 0 ≤ b.size.y)
    (hI : a.intersects b = true) :
    0 < overlapLeft a b ∧ 0 < overlapRight a b ∧ 0 < overlapTop a b ∧ 0 < overlapBottom a b := by
  rw [intersects_iff_of_nonneg a b hax hay hbx hby] at hI
  obtain ⟨⟨h1, h2, -, -⟩, h3, h4, -, -⟩ := hI
  unfold overlapLeft overlapRight overlapTop overlapBottom
  refine ⟨?_, ?_, ?_, ?_⟩ <;> linarith

/-- C13: for intersecting bounds of non-negative size, the translation applied
by `checkCollision` is axis-aligned with magnitude
`m = min (min left right) (min top bottom)` over the four overlap depths, and
no translation `(dx, dy)` with `|dx| < m` and `|dy| < m` separates the body's
bounds from the obstacle's bounds. -/
theorem checkCollision_min_translation (p : Player) (plat : Platform)
    (hpw : 0 ≤ p.shape.getGlobalBounds.size.x) (hph : 0 ≤ p.shape.getGlobalBounds.size.y)
    (hww : 0 ≤ plat.shape.getGlobalBounds.size.x) (hwh : 0 ≤ plat.shape.getGlobalBounds.size.y)
    (hI : p.shape.getGlobalBounds.intersects plat.shape.getGlobalBounds = true) :
    (((checkCollision p plat).shape.position.y - p.shape.position.y = 0
        ∧ |(checkCollision p plat).shape.position.x - p.shape.position.x|
            = min (min (overlapLeft p.shape.getGlobalBounds plat.shape.getGlobalBounds)
                    (overlapRight p.shape.getGlobalBounds plat.shape.getGlobalBounds))
                (min (overlapTop p.shape.getGlobalBounds plat.shape.getGlobalBounds)
                    (overlapBottom p.shape.getGlobalBounds plat.shape.getGlobalBounds)))
      ∨ ((checkCollision p plat).shape.position.x - p.shape.position.x = 0
        ∧ |(checkCollision p plat).shape.position.y - p.shape.position.y|
            = min (min (overlapLeft p.shape.getGlobalBounds plat.shape.getGlobalBounds)
                    (overlapRight p.shape.getGlobalBounds plat.shape.getGlobalBounds))
                (min (overlapTop p.shape.getGlobalBounds plat.shape.getGlobalBounds)
                    (overlapBottom p.shape.getGlobalBounds plat.shape.getGlobalBounds))))
    ∧ ∀ dx dy : ℚ,
        |dx| < min (min (overlapLeft p.shape.getGlobalBounds plat.shape.getGlobalBounds)
                    (overlapRight p.shape.getGlobalBounds plat.shape.getGlobalBounds))
                (min (overlapTop p.shape.getGlobalBounds plat.shape.getGlobalBounds)
                    (overlapBottom p.shape.getGlobalBounds plat.shape.getGlobalBounds)) →
        |dy| < min (min (overlapLeft p.shape.getGlobalBounds plat.shape.getGlobalBounds)
                    (overlapRight p.shape.getGlobalBounds plat.shape.getGlobalBounds))
                (min (overlapTop p.shape.getGlobalBounds plat.shape.getGlobalBounds)
                    (overlapBottom p.shape.getGlobalBounds plat.shape.getGlobalBounds)) →
        (p.shape.move ⟨dx, dy⟩).getGlobalBounds.intersects plat.shape.getGlobalBounds
          = true := by
  obtain ⟨hL, hR, hT, hB⟩ := overlaps_pos _ _ hpw hph hww hwh hI
  constructor
  · unfold checkCollision
    simp only [hI, if_true, minOverlapX, minOverlapY]
    by_cases h1 : min (overlapLeft p.shape.getGlobalBounds plat.shape.getGlobalBounds)
          (overlapRight p.shape.getGlobalBounds plat.shape.getGlobalBounds)
        < min (overlapTop p.shape.getGlobalBounds plat.shape.getGlobalBounds)
          (overlapBottom p.shape.getGlobalBounds plat.shape.getGlobalBounds)
    · left
      rw [min_eq_left (le_of_lt h1)]
      by_cases h2 : overlapLeft p.shape.getGlobalBounds plat.shape.getGlobalBounds
          < overlapRight p.shape.getGlobalBounds plat.shape.getGlobalBounds
      · simp only [h1, h2, if_true, RectangleShape.move]
        rw [min_eq_left (le_of_lt h2)]
        refine ⟨by ring, ?_⟩
        rw [show p.shape.position.x
            + -overlapLeft p.shape.getGlobalBounds plat.shape.getGlobalBounds
            - p.shape.position.x
            = -overlapLeft p.shape.getGlobalBounds plat.shape.getGlobalBounds by ring,
          abs_neg, abs_of_pos hL]
      · simp only [h1, h2, if_true, if_false, RectangleShape.move]
        rw [min_eq_right (not_lt.mp h2)]
        refine ⟨by ring, ?_⟩
        rw [show p.shape.position.x
            + overlapRight p.shape.getGlobalBounds plat.shape.getGlobalBounds
            - p.shape.position.x
            = overlapRight p.shape.getGlobalBounds plat.shape.getGlobalBounds by ring,
          abs_of_pos hR]
    · right
      rw [min_eq_right (not_lt.mp h1)]
      by_cases h2 : overlapTop p.shape.getGlobalBounds plat.shape.getGlobalBounds
          < overlapBottom p.shape.getGlobalBounds plat.shape.getGlobalBounds
      · simp only [h1, h2, if_true, if_false, RectangleShape.move]
        rw [min_eq_left (le_of_lt h2)]
        refine ⟨by ring, ?_⟩
        rw [show p.shape.position.y
            + -overlapTop p.shape.getGlobalBounds plat.shape.getGlobalBounds
            - p.shape.position.y
            = -overlapTop p.shape.getGlobalBounds plat.shape.getGlobalBounds by ring,
          abs_neg, abs_of_pos hT]
      · simp only [h1, h2, if_false, RectangleShape.move]
        rw [min_eq_right (not_lt.mp h2)]
        refine ⟨by ring, ?_⟩
        rw [show p.shape.position.y
            + overlapBottom p.shape.getGlobalBounds plat.shape.getGlobalBounds
            - p.shape.position.y
            = overlapBottom p.shape.getGlobalBounds plat.shape.getGlobalBounds by ring,
          abs_of_pos hB]
  · intro dx dy hdx hdy
    rw [lt_min_iff, lt_min_iff, lt_min_iff] at hdx hdy
    obtain ⟨⟨hxL, hxR⟩, -, -⟩ := hdx
    obtain ⟨-, hyT, hyB⟩ := hdy
    rw [abs_lt] at hxL hxR hyT hyB
    have hI' := (intersects_iff_of_nonneg _ _ hpw hph hww hwh).mp hI
    obtain ⟨⟨-, -, hw1, hw2⟩, -, -, hh1, hh2⟩ := hI'
    have hsx : (p.shape.move ⟨dx, dy⟩).getGlobalBounds.size = p.shape.getGlobalBounds.size := rfl
    rw [intersects_iff_of_nonneg _ _ (by rw [hsx]; exact hpw) (by rw [hsx]; exact hph) hww hwh]
    rw [hsx]
    unfold overlapLeft overlapRight overlapTop overlapBottom at *
    simp only [RectangleShape.getGlobalBounds, RectangleShape.move] at *
    refine ⟨⟨?_, ?_, hw1, hw2⟩, ?_, ?_, hh1, hh2⟩ <;> linarith [hxL.1, hxL.2, hxR.1, hxR.2,
      hyT.1, hyT.2, hyB.1, hyB.2]

/-- C13 at body bounds (100,100,30,30) and obstacle bounds (90,125,200,20): the
overlap depths are 40, 190, 5 and 45, so `m = 5`, and the translation
`(4, -4)` does not separate the two rectangles. -/
theorem checkCollision_min_translation_witness :
    ((bodyAt 100 100 0 3 false).shape.getGlobalBounds.intersects
        (obstacleWithBounds 90 125 200 20).shape.getGlobalBounds = true
      ∧ min (min (overlapLeft (bodyAt 100 100 0 3 false).shape.getGlobalBounds
                (obstacleWithBounds 90 125 200 20).shape.getGlobalBounds)
              (overlapRight (bodyAt 100 100 0 3 false).shape.getGlobalBounds
                (obstacleWithBounds 90 125 200 20).shape.getGlobalBounds))
            (min (overlapTop (bodyAt 100 100 0 3 false).shape.getGlobalBounds
                (obstacleWithBounds 90 125 200 20).shape.getGlobalBounds)
              (overlapBottom (bodyAt 100 100 0 3 false).shape.getGlobalBounds
                (obstacleWithBounds 90 125 200 20).shape.getGlobalBounds)) = 5)
    ∧ ((bodyAt 100 100 0 3 false).shape.move ⟨4, -4⟩).getGlobalBounds.intersects
        (obstacleWithBounds 90 125 200 20).shape.getGlobalBounds = true := by
  have hI : (bodyAt 100 100 0 3 false).shape.getGlobalBounds.intersects
      (obstacleWithBounds 90 125 200 20).shape.getGlobalBounds = true := by
    rw [intersects_iff]
    norm_num [bodyAt, obstacleWithBounds, RectangleShape.getGlobalBounds]
  have hm : min (min (overlapLeft (bodyAt 100 100 0 3 false).shape.getGlobalBounds
                (obstacleWithBounds 90 125 200 20).shape.getGlobalBounds)
              (overlapRight (bodyAt 100 100 0 3 false).shape.getGlobalBounds
                (obstacleWithBounds 90 125 200 20).shape.getGlobalBounds))
            (min (overlapTop (bodyAt 100 100 0 3 false).shape.getGlobalBounds
                (obstacleWithBounds 90 125 200 20).shape.getGlobalBounds)
              (overlapBottom (bodyAt 100 100 0 3 false).shape.getGlobalBounds
                (obstacleWithBounds 90 125 200 20).shape.getGlobalBounds)) = 5 := by
    norm_num [overlapLeft, overlapRight, overlapTop, overlapBottom, bodyAt,
      obstacleWithBounds, RectangleShape.getGlobalBounds]
  exact ⟨⟨hI, hm⟩,
    (checkCollision_min_translation (bodyAt 100 100 0 3 false)
      (obstacleWithBounds 90 125 200 20)
      (by norm_num [bodyAt, RectangleShape.getGlobalBounds])
      (by norm_num [bodyAt, RectangleShape.getGlobalBounds])
      (by norm_num [obstacleWithBounds, RectangleShape.getGlobalBounds])
      (by norm_num [obstacleWithBounds, RectangleShape.getGlobalBounds]) hI).2 4 (-4)
      (by rw [hm]; norm_num [abs_lt]) (by rw [hm]; norm_num [abs_lt])⟩

/-! ## Horizontal speed over a run -/

theorem applyInput_velocity_x_step (i : Input) (p : Player)
    (h : -17 / 5 < p.velocity.x ∧ p.velocity.x < 17 / 5) :
    -4 < (applyInput i p).velocity.x ∧ (applyInput i p).velocity.x < 4 := by
  obtain ⟨l, r, j⟩ := i
  obtain ⟨h1, h2⟩ := h
  unfold applyInput applyJump applyRight applyLeft MAX_SPEED MOVE_SPEED
  cases l <;> cases r <;> simp <;> split_ifs <;> (try simp) <;>
    (try constructor) <;> (try linarith)

theorem update_velocity_x_cases (p : Player) :
    p.update.velocity.x = 0 ∨ p.update.velocity.x = p.velocity.x * FRICTION := by
  unfold Player.update
  simp only []
  split_ifs <;> first | (left; rfl) | (right; rfl)

theorem checkCollision_velocity_x_cases (p : Player) (plat : Platform) :
    (checkCollision p plat).velocity.x = 0
      ∨ (checkCollision p plat).velocity.x = p.velocity.x := by
  unfold checkCollision
  simp only []
  split_ifs
  · left; rfl
  · left; rfl
  · right; rfl
  · right; rfl
  · right; rfl

theorem resolveAll_velocity_x_cases (platforms : List Platform) (p : Player) :
    (resolveAll platforms p).velocity.x = 0
      ∨ (resolveAll platforms p).velocity.x = p.velocity.x := by
  induction platforms generalizing p with
  | nil => right; rfl
  | cons plat rest ih =>
    have hstep : resolveAll (plat :: rest) p = resolveAll rest (checkCollision p plat) := rfl
    rw [hstep]
    rcases ih (checkCollision p plat) with h | h
    · left; exact h
    · rcases checkCollision_velocity_x_cases p plat with h' | h'
      · left; rw [h, h']
      · right; rw [h, h']

/-- One tick keeps the horizontal velocity strictly inside `(-17/5, 17/5)`. -/
theorem tick_velocity_x_step (platforms : List Platform) (i : Input) (p : Player)
    (h : -17 / 5 < p.velocity.x ∧ p.velocity.x < 17 / 5) :
    -17 / 5 < (tick platforms i p).velocity.x ∧ (tick platforms i p).velocity.x < 17 / 5 := by
  have h1 := applyInput_velocity_x_step i p h
  have h2 : -17 / 5 < (applyInput i p).update.velocity.x
      ∧ (applyInput i p).update.velocity.x < 17 / 5 := by
    rcases update_velocity_x_cases (applyInput i p) with hu | hu <;> rw [hu]
    · norm_num
    · unfold FRICTION
      constructor <;> linarith [h1.1, h1.2]
  unfold tick
  rcases resolveAll_velocity_x_cases platforms
    { (applyInput i p).update with isGrounded := false } with hr | hr <;> rw [hr]
  · norm_num
  · exact h2

theorem runTicks_velocity_x_range (platforms : List Platform) (inputs : List Input)
    (p : Player) (h : -17 / 5 < p.velocity.x ∧ p.velocity.x < 17 / 5) :
    -17 / 5 < (runTicks platforms inputs p).velocity.x
      ∧ (runTicks platforms inputs p).velocity.x < 17 / 5 := by
  induction inputs generalizing p with
  | nil => exact h
  | cons i rest ih =>
    have hstep : runTicks platforms (i :: rest) p
        = runTicks platforms rest (tick platforms i p) := rfl
    rw [hstep]
    exact ih _ (tick_velocity_x_step platforms i p h)

/-- C19: starting from `velocity.x = 0`, after any number of ticks, under any
sequence of inputs and any platform list, the velocity at the end of the last
tick (hence of every tick, the sequence being arbitrary) satisfies
`|velocity.x| < 17/5`, and so stays below `MAX_SPEED`. -/
theorem runTicks_speed_bound (platforms : List Platform) (inputs : List Input) (p : Player)
    (h0 : p.velocity.x = 0) :
    |(runTicks platforms inputs p).velocity.x| < 17 / 5
    ∧ |(runTicks platforms inputs p).velocity.x| < MAX_SPEED := by
  have h := runTicks_velocity_x_range platforms inputs p (by rw [h0]; norm_num)
  have habs : |(runTicks platforms inputs p).velocity.x| < 17 / 5 :=
    abs_lt.mpr ⟨by linarith [h.1], h.2⟩
  refine ⟨habs, ?_⟩
  unfold MAX_SPEED
  linarith

/-- C19 from the spawn state on the startup platforms with left held twice and
then right held. -/
theorem runTicks_speed_bound_witness :
    Player.new.velocity.x = 0
    ∧ |(runTicks startupPlatforms [holdLeft, holdLeft, holdRight] Player.new).velocity.x|
        < 17 / 5 :=
  ⟨rfl, (runTicks_speed_bound startupPlatforms [holdLeft, holdLeft, holdRight]
    Player.new rfl).1⟩

/-! ## Resting contact -/

end RetroGame
